import Mathlib

/-!
# Verification of the sentinl report action (`src/server/lib/actions/actions/report.js`)

Shallow embedding of the report action pipeline: the `Authenticator` strategy
class, the `Reporter` browser-session class, the pure helpers
`createReportFileName` / `createReportAttachment`, and the orchestrator
`doReport`.

Modelling conventions:
* Every `await`ed external operation (puppeteer calls, mail transport, the
  history store) is a step whose outcome (success / rejection) is drawn from an
  ambient `World`, and which appends an observable `Event` to a trace.
* A JS async function body is a value of `Js alpha`: an `Except` outcome
  (`Except.error` = rejected promise) paired with the list of events the body
  emitted before finishing.  `Js.bind` is `await` sequencing; `jsTry` is
  `try/catch`.
* JS exceptions are carried as their message strings.
* The in-place mutation of the object returned by `getConfiguration` is made
  explicit through a heap mapping references to `ReportConfig` values;
  `doReport` reads the configuration cell, overlays per-action values onto it,
  and writes the same cell back.
* `uuid()` and `moment().format(...)` are nondeterministic inputs supplied by
  the `World`, as is the (opaque) `mustache.render` capability.
-/

namespace Sentinl

/-- Custom-mode authentication selectors (`config.authentication.custom`). -/
structure CustomSelectors where
  username_input_selector : String
  password_input_selector : String
  login_btn_selector : String
  deriving DecidableEq

/-- The authentication-mode flags of the resolved configuration
(`config.authentication.mode.{searchguard,xpack,custom,basic}`). -/
structure AuthMode where
  searchguard : Bool
  xpack : Bool
  custom : Bool
  basic : Bool
  deriving DecidableEq

/-- `config.authentication`. -/
structure Authentication where
  enabled : Bool
  mode : AuthMode
  username : String
  password : String
  custom : CustomSelectors
  deriving DecidableEq

/-- `config.file.screenshot`: the viewport dimensions.  They are strings in the
source after the overlay (`action.snapshot.res.split('x')[i]`). -/
structure ScreenshotCfg where
  width : String
  height : String
  deriving DecidableEq

/-- `config.file.pdf`. -/
structure PdfCfg where
  format : String
  landscape : Bool
  deriving DecidableEq

/-- `config.file`. -/
structure FileCfg where
  screenshot : ScreenshotCfg
  pdf : PdfCfg
  deriving DecidableEq

/-- The resolved report configuration `getConfiguration(server).settings.report`. -/
structure ReportConfig where
  active : Bool
  timeout : Nat
  executable_path : String
  authentication : Authentication
  file : FileCfg
  deriving DecidableEq

/-- Per-action snapshot parameters (`action.snapshot.params`).  Optional JS
fields are `Option`s; `none` models `undefined`. -/
structure SnapshotParams where
  username : String
  password : String
  delay : Option Nat
  username_input_selector : Option String
  password_input_selector : Option String
  login_btn_selector : Option String
  deriving DecidableEq

/-- `action.snapshot`. -/
structure Snapshot where
  url : String
  type : String
  name : Option String
  res : String
  params : SnapshotParams
  deriving DecidableEq

/-- The report action payload.  `from`/`to` are Lean keywords, so the mail
addresses are named `fromAddress`/`toAddress`. -/
structure Action where
  snapshot : Snapshot
  subject : Option String
  body : Option String
  priority : Option String
  fromAddress : String
  toAddress : String
  stateless : Bool
  deriving DecidableEq

/-- The watcher task: `task._id` and `task._source.title`. -/
structure Task where
  id : String
  title : String
  deriving DecidableEq

/-- One element of the attachment array built by `createReportAttachment`. -/
structure AttachmentPart where
  data : String
  alternative : Bool := false
  type : Option String := none
  name : Option String := none
  encoded : Bool := false
  contentID : Option String := none
  deriving DecidableEq

/-- The argument object of a `logHistory` call.  The primary write carries
`level`, `report: true` and the attachment `object`; the fallback write only
`title`, `actionType` and the serialized error `message`. -/
structure HistoryRecord where
  title : String
  actionType : String
  level : Option String := none
  report : Bool := false
  message : String
  object : Option (List AttachmentPart) := none
  deriving DecidableEq

/-- The argument object of `email.send`. -/
structure MailMsg where
  text : String
  fromAddress : String
  toAddress : String
  subject : String
  attachment : List AttachmentPart
  deriving DecidableEq

/-- Observable events: every awaited external operation plus log lines. -/
inductive Event where
  | launch (executablePath : String)
  | newPage
  | setHeaders (headerName headerValue : String)
  | goto (url : String)
  | typeText (selector text : String)
  | click (selector : String)
  | wait (ms : Nat)
  | setViewport (width height : String)
  | screenshot (type : String)
  | pdfPrint (format : String) (landscape : Bool)
  | browserClose
  | emailSend (m : MailMsg)
  | historyWrite (rec : HistoryRecord)
  | logInfo (msg : String)
  | logDebug (msg : String)
  | logError (msg : String)
  deriving DecidableEq

/-- Outcome of one JS async body: an `Except` result (rejection carries the
error message) together with the trace of events it emitted. -/
abbrev Js (α : Type) : Type := Except String α × List Event

/-- `return` of a JS async body. -/
def Js.pure {α : Type} (a : α) : Js α := (Except.ok a, [])

/-- `await` sequencing: on rejection the continuation never runs, but the
events already emitted stay in the trace. -/
def Js.bind {α β : Type} (m : Js α) (f : α → Js β) : Js β :=
  match m with
  | (Except.ok a, evs) => ((f a).1, evs ++ (f a).2)
  | (Except.error e, evs) => (Except.error e, evs)

/-- `throw new Error(msg)`. -/
def jsThrow {α : Type} (msg : String) : Js α := (Except.error msg, [])

/-- `try { m } catch (err) { h err }`. -/
def jsTry {α : Type} (m : Js α) (h : String → Js α) : Js α :=
  match m with
  | (Except.ok a, evs) => (Except.ok a, evs)
  | (Except.error e, evs) => ((h e).1, evs ++ (h e).2)

/-- An awaited external operation: emits its event, then succeeds or rejects
with `msg` according to the ambient world. -/
def jsStep (e : Event) (ok : Bool) (msg : String) : Js Unit :=
  (if ok then Except.ok () else Except.error msg, [e])

/-- An operation that only emits an event and never fails (`delay`, log calls). -/
def jsEmit (e : Event) : Js Unit := (Except.ok (), [e])

/-- The ambient environment: outcomes of every external operation, plus the
nondeterministic/opaque capabilities `uuid`, `moment().format` and
`mustache.render`. -/
structure World where
  launchOk : Bool
  newPageOk : Bool
  setHeadersOk : Bool
  gotoOk : Bool
  typeOk : String → Bool
  clickOk : String → Bool
  setViewportOk : Bool
  screenshotResult : Except String (List Nat)
  pdfResult : Except String (List Nat)
  closeOk : Bool
  sendOk : Bool
  primaryWriteResult : Except String String
  fallbackWriteResult : Except String String
  render : String → String
  uuid : String
  nowTs : String

/-! ## Base64 (Buffer/`toString('base64')` encoding used by the attachment and
the basic-auth header) -/

/-- The RFC 4648 base64 alphabet. -/
def base64Alphabet : List Char :=
  "ABCDEFGHIJKLMNOPQRSTUVWXYZabcdefghijklmnopqrstuvwxyz0123456789+/".toList

/-- The character for one six-bit group. -/
def sextetChar (n : Nat) : Char := base64Alphabet.getD n '='

/-- Inverse of `sextetChar` on the alphabet. -/
def charSextet (c : Char) : Option Nat :=
  let i := base64Alphabet.indexOf c
  if i < 64 then some i else none

/-- Base64 encoding of a byte list (each element < 256), with `=` padding,
exactly as `Buffer.prototype.toString('base64')` produces. -/
def base64EncodeGroups : List Nat → List Char
  | [] => []
  | [a] => [sextetChar (a / 4), sextetChar (a % 4 * 16), '=', '=']
  | [a, b] => [sextetChar (a / 4), sextetChar (a % 4 * 16 + b / 16), sextetChar (b % 16 * 4), '=']
  | a :: b :: c :: rest =>
      sextetChar (a / 4) :: sextetChar (a % 4 * 16 + b / 16) ::
        sextetChar (b % 16 * 4 + c / 64) :: sextetChar (c % 64) :: base64EncodeGroups rest

/-- Base64 decoding (spec side of the round-trip property). -/
def base64DecodeGroups : List Char → Option (List Nat)
  | [] => some []
  | w :: x :: y :: z :: rest =>
      if y = '=' ∧ z = '=' ∧ rest = [] then
        match charSextet w, charSextet x with
        | some sw, some sx => some [sw * 4 + sx / 16]
        | _, _ => none
      else if z = '=' ∧ rest = [] then
        match charSextet w, charSextet x, charSextet y with
        | some sw, some sx, some sy => some [sw * 4 + sx / 16, sx % 16 * 16 + sy / 4]
        | _, _, _ => none
      else
        match charSextet w, charSextet x, charSextet y, charSextet z with
        | some sw, some sx, some sy, some sz =>
            match base64DecodeGroups rest with
            | some bs => some ((sw * 4 + sx / 16) :: (sx % 16 * 16 + sy / 4) :: (sy % 4 * 64 + sz) :: bs)
            | none => none
        | _, _, _, _ => none
  | _ => none

/-- `bytes.toString('base64')` as a string. -/
def base64String (bytes : List Nat) : String := String.mk (base64EncodeGroups bytes)

/-- Decode a base64 string back to bytes. -/
def base64DecodeString (s : String) : Option (List Nat) := base64DecodeGroups s.toList

/-- `new Buffer(s).toString('base64')`: base64 of the UTF-8 bytes of `s`. -/
def base64OfString (s : String) : String :=
  base64String (s.toUTF8.toList.map UInt8.toNat)

/-! ## Authenticator -/

namespace Authenticator

/-- `Authenticator.kibana(page, user, pass, appName, timeout)`: types the
credentials into `#username`/`#password`, clicks the `appName`-specific login
button, waits, dismisses the post-login overlay, waits again; wraps any failure
into a Search Guard authentication error. -/
def kibana (w : World) (user pass : String) (appName : String := "xpack")
    (timeout : Nat := 5000) : Js Unit :=
  jsTry
    (Js.bind (jsStep (Event.typeText "#username" user) (w.typeOk "#username") "no such element") (fun _ =>
     Js.bind (jsStep (Event.typeText "#password" pass) (w.typeOk "#password") "no such element") (fun _ =>
     Js.bind (if appName = "xpack" then
                jsStep (Event.click ".kuiButton") (w.clickOk ".kuiButton") "no such element"
              else
                jsStep (Event.click ".btn-login") (w.clickOk ".btn-login") "no such element") (fun _ =>
     Js.bind (jsEmit (Event.wait timeout)) (fun _ =>
     Js.bind (jsStep (Event.click ".global-nav-link--close") (w.clickOk ".global-nav-link--close") "no such element") (fun _ =>
     jsEmit (Event.wait (timeout / 5))))))))
    (fun err => jsThrow ("fail to authenticate via Search Guard, user: " ++ user ++ ", " ++ err))

/-- `Authenticator.custom(page, user, pass, userSelector, passSelector,
loginBtnSelector, timeout)`. -/
def custom (w : World) (user pass userSelector passSelector loginBtnSelector : String)
    (timeout : Nat := 5000) : Js Unit :=
  jsTry
    (Js.bind (jsStep (Event.typeText userSelector user) (w.typeOk userSelector) "no such element") (fun _ =>
     Js.bind (jsStep (Event.typeText passSelector pass) (w.typeOk passSelector) "no such element") (fun _ =>
     Js.bind (jsStep (Event.click loginBtnSelector) (w.clickOk loginBtnSelector) "no such element") (fun _ =>
     jsEmit (Event.wait timeout)))))
    (fun err => jsThrow ("fail to authenticate via custom auth, user: " ++ user ++ ", " ++ err))

/-- `Authenticator.basic(page, user, pass, encoding = 'base64')`: sets the
standing `Authorization: Basic <base64(user:pass)>` header. -/
def basic (w : World) (user pass : String) : Js Unit :=
  jsTry
    (jsStep (Event.setHeaders "Authorization" ("Basic " ++ base64OfString (user ++ ":" ++ pass)))
      w.setHeadersOk "setExtraHTTPHeaders failed")
    (fun err => jsThrow ("fail to set basic auth headers, user: " ++ user ++ ", " ++ err))

end Authenticator

/-! ## Reporter -/

/-- The `Reporter` object.  The constructor only assigns `this.config`; the
source nonetheless reads `this.authentication` inside `openPage`, which is
therefore `undefined` — modelled by the `authentication` field that is `none`
at construction and never assigned. -/
structure Reporter where
  config : ReportConfig
  authentication : Option Authentication := none

namespace Reporter

/-- `Reporter.authenticate(mode, user, pass, timeout)`.  Note the custom branch
passes the string literals `'#user'`, `'#pass'`, `'.btn-lg'` — not the merged
`config.authentication.custom` selectors. -/
def authenticate (r : Reporter) (w : World) (mode : AuthMode) (user pass : String)
    (timeout : Nat) : Js Unit :=
  Js.bind (if mode.searchguard then Authenticator.kibana w user pass "searchguard" timeout
           else Js.pure ()) (fun _ =>
  Js.bind (if mode.xpack then Authenticator.kibana w user pass "xpack" timeout
           else Js.pure ()) (fun _ =>
  if mode.custom then Authenticator.custom w user pass "#user" "#pass" ".btn-lg" timeout
  else Js.pure ()))

/-- `Reporter.openPage(url, executablePath)`: launch + new page (wrapped),
then — when basic auth is configured — `Authenticator.basic(this.page,
this.authentication.username, this.authentication.password)`, which dereferences
the undefined `this.authentication` and throws a `TypeError`; then `goto`
(wrapped), then either `authenticate` or a settle delay. -/
def openPage (r : Reporter) (w : World) (pageUrl executablePath : String) : Js Unit :=
  Js.bind
    (jsTry
      (Js.bind (jsStep (Event.launch executablePath) w.launchOk "launch failed") (fun _ =>
        jsStep Event.newPage w.newPageOk "newPage failed"))
      (fun err => jsThrow ("fail to open headless chrome, " ++ err)))
    (fun _ =>
  Js.bind
    (if r.config.authentication.enabled && r.config.authentication.mode.basic then
      match r.authentication with
      | none => jsThrow "TypeError: Cannot read property \x27username\x27 of undefined"
      | some a => Authenticator.basic w a.username a.password
     else Js.pure ())
    (fun _ =>
  Js.bind
    (jsTry (jsStep (Event.goto pageUrl) w.gotoOk "net error")
      (fun _ => jsThrow ("fail to go to url: " ++ pageUrl)))
    (fun _ =>
  if r.config.authentication.enabled then
    authenticate r w r.config.authentication.mode r.config.authentication.username
      r.config.authentication.password r.config.timeout
  else
    jsEmit (Event.wait r.config.timeout))))

/-- `Reporter.screenshot(type)`.  `pageUrl` stands for `this.url`, which
`openPage` stored and is only used in the error message. -/
def screenshot (r : Reporter) (w : World) (type pageUrl : String) : Js (List Nat) :=
  jsTry
    (Js.bind (jsStep (Event.setViewport r.config.file.screenshot.width r.config.file.screenshot.height)
        w.setViewportOk "setViewport failed")
      (fun _ => (w.screenshotResult, [Event.screenshot type])))
    (fun err => jsThrow ("fail to do a screenshot, url: " ++ pageUrl ++ ", " ++ err))

/-- `Reporter.pdf()`. -/
def pdf (r : Reporter) (w : World) (pageUrl : String) : Js (List Nat) :=
  jsTry
    ((w.pdfResult, [Event.pdfPrint r.config.file.pdf.format r.config.file.pdf.landscape]))
    (fun err => jsThrow ("fail to do a PDF doc, url: " ++ pageUrl ++ ", " ++ err))

/-- `Reporter.end()`: `this.browser.close()` wrapped.  (`end` is a Lean
keyword, hence the name `endSession`.) -/
def endSession (w : World) : Js Unit :=
  jsTry (jsStep Event.browserClose w.closeOk "close failed")
    (fun err => jsThrow ("fail to close headless chrome, " ++ err))

end Reporter

/-! ## Artifact packager -/

/-- JS falsiness of an optional string (`!x || !x.length`): missing or empty. -/
def jsFalsyStr : Option String → Bool
  | none => true
  | some s => s == ""

/-- `createReportFileName(filename, type = 'png')`.  `u` and `ts` supply the
values of the `uuid()` and `moment().format('DD-MM-YYYY-h-m-s')` calls made
when `filename` is falsy. -/
def createReportFileName (filename : Option String) (type : String := "png")
    (u ts : String) : String :=
  if jsFalsyStr filename then "report-" ++ u ++ "-" ++ ts ++ "." ++ type
  else filename.getD "" ++ "." ++ type

/-- `createReportAttachment(filename, file, type = 'png')`: the two-part mail
attachment array. -/
def createReportAttachment (filename : String) (file : List Nat)
    (type : String := "png") : List AttachmentPart :=
  let filetype := if type = "pdf" then "application/pdf" else "image/" ++ type
  let data := if type = "pdf" then "<html><p>Find PDF report in the attachment.</p></html>"
    else "<html><img src=\x27cid:my-report\x27 width=\x27100%\x27></html>"
  [ { data := data, alternative := true },
    { data := base64String file,
      type := some filetype,
      name := some filename,
      encoded := true,
      contentID := some "<my-report>" } ]

/-! ## Orchestrator -/

/-- A heap of configuration objects.  `getConfiguration(server)` hands every
caller a reference to the same mutable object; `doReport` mutates the cell it
was given. -/
abbrev Heap : Type := String → ReportConfig

/-- Write through a reference. -/
def writeRef (σ : Heap) (r : String) (c : ReportConfig) : Heap :=
  fun x => if x = r then c else σ x

/-- JS `x || d` for an optional string (`undefined` and `""` are falsy). -/
def jsOrStr (x : Option String) (d : String) : String :=
  match x with
  | none => d
  | some s => if s = "" then d else s

/-- JS `x || d` for an optional number (`undefined` and `0` are falsy). -/
def jsOrNat (x : Option Nat) (d : Nat) : Nat :=
  match x with
  | none => d
  | some n => if n = 0 then d else n

/-- The per-action override block of `doReport` (lines 214-226): credentials,
viewport dimensions from `res.split('x')`, timeout, and — in custom mode — the
three selectors with individual fallback to the existing config values. -/
def overlayConfig (c : ReportConfig) (a : Action) : ReportConfig :=
  let auth1 : Authentication :=
    { c.authentication with
      username := a.snapshot.params.username,
      password := a.snapshot.params.password }
  let auth2 : Authentication :=
    if c.authentication.mode.custom then
      { auth1 with custom :=
        { username_input_selector :=
            jsOrStr a.snapshot.params.username_input_selector c.authentication.custom.username_input_selector,
          password_input_selector :=
            jsOrStr a.snapshot.params.password_input_selector c.authentication.custom.password_input_selector,
          login_btn_selector :=
            jsOrStr a.snapshot.params.login_btn_selector c.authentication.custom.login_btn_selector } }
    else auth1
  { c with
    authentication := auth2,
    file := { c.file with screenshot :=
      { width := (a.snapshot.res.splitOn "x").getD 0 "",
        height := (a.snapshot.res.splitOn "x").getD 1 "" } },
    timeout := jsOrNat a.snapshot.params.delay c.timeout }

/-- `open` followed by the capture branch of the try block:
`openPage(url, executable_path)` then `screenshot(type)` when the snapshot type
is not `pdf`, else `pdf()`. -/
def captureStep (w : World) (config : ReportConfig) (a : Action) : Js (List Nat) :=
  Js.bind (Reporter.openPage { config := config } w a.snapshot.url config.executable_path)
    (fun _ =>
      if a.snapshot.type ≠ "pdf" then
        Reporter.screenshot { config := config } w a.snapshot.type a.snapshot.url
      else
        Reporter.pdf { config := config } w a.snapshot.url)

/-- Did `open` + capture succeed for this world/config/action? -/
def sessionOk (w : World) (config : ReportConfig) (a : Action) : Bool :=
  match (captureStep w config a).1 with
  | Except.ok _ => true
  | Except.error _ => false

/-- Resolution value of the try block: the id returned by `logHistory`, or the
stateless sentinel object `\x7bmessage: ...\x7d`. -/
inductive ReportResult where
  | historyId (id : String)
  | message (msg : String)
  deriving DecidableEq

/-- A `logHistory` call: emits the write event; resolves with the stored id or
rejects, according to `outcome`. -/
def logHistoryOp (outcome : Except String String) (rec : HistoryRecord) : Js ReportResult :=
  (outcome.map ReportResult.historyId, [Event.historyWrite rec])

/-- The persistence step (lines 251-278): primary `logHistory` write, with the
catch around it performing the single fallback write (the inner
`if (!action.stateless)` of the catch is the source's own re-check; its else
branch — the `throw` — is unreachable there), and the stateless branch
returning the sentinel object. -/
def persistStep (w : World) (task : Task) (a : Action)
    (actionName text priority : String) (attachment : List AttachmentPart) : Js ReportResult :=
  if !a.stateless then
    jsTry
      (logHistoryOp w.primaryWriteResult
        { title := task.title, actionType := actionName, level := some priority,
          report := true, message := text, object := some attachment })
      (fun err =>
        if !a.stateless then
          logHistoryOp w.fallbackWriteResult
            { title := task.title, actionType := actionName, message := err }
        else
          jsThrow ("fail to save report in Elasticsearch, " ++ err))
  else
    Js.bind (jsEmit (Event.logDebug "stateless report does not save data to Elasticsearch")) (fun _ =>
    Js.pure (ReportResult.message "stateless report does not save data to Elasticsearch"))

/-- Lines 241-278: the debug log, `createReportAttachment` + `email.send`,
then the persistence step. -/
def mailAndPersist (w : World) (task : Task) (a : Action)
    (actionName subject text priority filename : String) (file : List Nat) : Js ReportResult :=
  Js.bind (jsEmit (Event.logDebug ("sending email, watcher " ++ task.id ++ ", text " ++ text))) (fun _ =>
  let attachment := createReportAttachment filename file a.snapshot.type
  Js.bind (jsStep (Event.emailSend
      { text := text, fromAddress := a.fromAddress, toAddress := a.toAddress,
        subject := subject, attachment := attachment }) w.sendOk "mail transport failed") (fun _ =>
  persistStep w task a actionName text priority attachment))

/-- The tail of the try block after the capture succeeded: `report.end()`,
then mail and persistence. -/
def afterCapture (w : World) (task : Task) (a : Action)
    (actionName subject text priority filename : String) (file : List Nat) : Js ReportResult :=
  Js.bind (Reporter.endSession w) (fun _ =>
    mailAndPersist w task a actionName subject text priority filename file)

/-- The whole try block of `doReport` (lines 228-278). -/
def doReportBody (w : World) (config : ReportConfig) (task : Task) (a : Action)
    (actionName subject text priority filename : String) : Js ReportResult :=
  Js.bind (captureStep w config a)
    (afterCapture w task a actionName subject text priority filename)

/-- Lines 193-196: the subject template, defaulted to `SENTINL: <actionName>`
when the action supplies none. -/
def subjectTemplate (a : Action) (actionName : String) : String :=
  if jsFalsyStr a.subject then "SENTINL: " ++ actionName else a.subject.getD ""

/-- Lines 198-201: the body template, defaulted to the series-report mustache
template when the action supplies none. -/
def bodyTemplate (a : Action) : String :=
  if jsFalsyStr a.body then
    "Series Report \x7b\x7bpayload._id\x7d\x7d: \x7b\x7bpayload.hits.total\x7d\x7d"
  else a.body.getD ""

/-- Lines 203-206: the priority, defaulted to `INFO`. -/
def effectivePriority (a : Action) : String :=
  if jsFalsyStr a.priority then "INFO" else a.priority.getD ""

/-- The log lines emitted between the active check and the try block: the
no-URL info line (lines 189-191) and the subject/body debug line (line 210). -/
def preEvents (w : World) (a : Action) (actionName : String) : List Event :=
  (if a.snapshot.url.length = 0 then [Event.logInfo "Report Disabled: No URL Settings!"] else []) ++
    [Event.logDebug ("subject: " ++ w.render (subjectTemplate a actionName) ++ ", body: " ++
      w.render (bodyTemplate a))]

/-- `doReport(server, email, task, action, actionName, payload)`.

`σ cfgRef` is the object `getConfiguration(server).settings.report`; the
returned heap is the post-call state of that shared object.  The outer
`Except` is the promise of the call itself: `Except.error` means the promise
rejected (an exception crossed the boundary), `Except.ok none` means the catch
block swallowed an error and the call resolved with `undefined`. -/
def doReport (w : World) (σ : Heap) (cfgRef : String) (task : Task) (a : Action)
    (actionName : String) : (Except String (Option ReportResult) × List Event) × Heap :=
  let config0 := σ cfgRef
  if !config0.active then
    ((Except.error "Reports Disabled: Action requires Email Settings!", []), σ)
  else
    let subject := w.render (subjectTemplate a actionName)
    let text := w.render (bodyTemplate a)
    let priority := effectivePriority a
    let evs2 := preEvents w a actionName
    let filename := createReportFileName a.snapshot.name a.snapshot.type w.uuid w.nowTs
    let σ1 := writeRef σ cfgRef (overlayConfig config0 a)
    let config := σ1 cfgRef
    let body := doReportBody w config task a actionName subject text priority filename
    match body.1 with
    | Except.ok r => ((Except.ok (some r), evs2 ++ body.2), σ1)
    | Except.error e => ((Except.ok none, evs2 ++ body.2 ++ [Event.logError e]), σ1)

/-- The events the outer catch appends: the `log.error` line when the try
block rejected, nothing when it resolved. -/
def errTail (r : Except String ReportResult) : List Event :=
  match r with
  | Except.ok _ => []
  | Except.error e => [Event.logError e]

/-- The resolution value of the whole `doReport` call as a function of the try
block's outcome: the catch block turns any rejection into a resolution with
`undefined`. -/
def wrapResult (r : Except String ReportResult) : Except String (Option ReportResult) :=
  match r with
  | Except.ok x => Except.ok (some x)
  | Except.error _ => Except.ok none

/-! ## Trace observations -/

/-- Is this event the browser-close attempt? -/
def isCloseEv : Event → Bool
  | Event.browserClose => true
  | _ => false

/-- Is this event a `setExtraHTTPHeaders` call? -/
def isSetHeadersEv : Event → Bool
  | Event.setHeaders _ _ => true
  | _ => false

/-- Is this event a mail send? -/
def isSendEv : Event → Bool
  | Event.emailSend _ => true
  | _ => false

/-- Is this event a history-store write? -/
def isWriteEv : Event → Bool
  | Event.historyWrite _ => true
  | _ => false

/-- Number of browser-close attempts in a trace. -/
def closes (evs : List Event) : Nat := evs.countP isCloseEv

/-- Number of mail sends in a trace. -/
def sends (evs : List Event) : Nat := evs.countP isSendEv

/-- The history-store writes attempted in a trace, in order. -/
def historyWrites (evs : List Event) : List HistoryRecord :=
  evs.filterMap fun e =>
    match e with
    | Event.historyWrite rec => some rec
    | _ => none

/-- `m` emits no event satisfying `p`. -/
def noEv (p : Event → Bool) {α : Type} (m : Js α) : Prop := m.2.countP p = 0

/-! ## Concrete fixtures -/

/-- A world in which every external operation succeeds. -/
def wAllOk : World where
  launchOk := true
  newPageOk := true
  setHeadersOk := true
  gotoOk := true
  typeOk := fun _ => true
  clickOk := fun _ => true
  setViewportOk := true
  screenshotResult := Except.ok [7, 8, 9]
  pdfResult := Except.ok [1, 2]
  closeOk := true
  sendOk := true
  primaryWriteResult := Except.ok "id-1"
  fallbackWriteResult := Except.ok "id-2"
  render := fun s => s
  uuid := "u1"
  nowTs := "01-01-2026-1-2-3"

/-- All-ok world except that page navigation fails. -/
def wGotoFail : World := { wAllOk with gotoOk := false }

/-- All-ok world except that `browser.close()` fails. -/
def wCloseFail : World := { wAllOk with closeOk := false }

/-- All-ok world except that the primary history write is rejected. -/
def wPrimaryFail : World := { wAllOk with primaryWriteResult := Except.error "es down" }

/-- All-ok world except that taking the screenshot fails. -/
def wShotFail : World := { wAllOk with screenshotResult := Except.error "shot failed" }

/-- A resolved configuration with authentication disabled. -/
def cfgNoAuth : ReportConfig where
  active := true
  timeout := 100
  executable_path := "/usr/bin/chromium"
  authentication :=
    { enabled := false, mode := ⟨false, false, false, false⟩,
      username := "cu", password := "cp",
      custom := ⟨"#login-user", "#login-pass", "#login-btn"⟩ }
  file := { screenshot := ⟨"1920", "1080"⟩, pdf := ⟨"A4", true⟩ }

/-- The same configuration with custom-mode authentication enabled. -/
def cfgCustom : ReportConfig :=
  { cfgNoAuth with authentication :=
    { cfgNoAuth.authentication with enabled := true, mode := ⟨false, false, true, false⟩ } }

/-- The same configuration with basic-mode authentication enabled. -/
def cfgBasic : ReportConfig :=
  { cfgNoAuth with authentication :=
    { cfgNoAuth.authentication with enabled := true, mode := ⟨false, false, false, true⟩ } }

/-- A plain non-stateless png action. -/
def action0 : Action where
  snapshot :=
    { url := "http://x", type := "png", name := some "nightly", res := "800x600",
      params :=
        { username := "bob", password := "pw", delay := some 10,
          username_input_selector := none, password_input_selector := none,
          login_btn_selector := none } }
  subject := some "subj"
  body := some "hello"
  priority := some "INFO"
  fromAddress := "a@b"
  toAddress := "c@d"
  stateless := false

/-- `action0` marked stateless. -/
def actionStateless : Action := { action0 with stateless := true }

/-- `action0` overriding only the login-button selector (for the custom-mode
claims). -/
def actionBtnOverride : Action :=
  { action0 with snapshot :=
    { action0.snapshot with params :=
      { action0.snapshot.params with login_btn_selector := some "#my-btn" } } }

/-- `action0` supplying every per-action override, custom selectors included. -/
def actionCustomFull : Action :=
  { action0 with snapshot :=
    { action0.snapshot with params :=
      { username := "bob", password := "pw", delay := some 10,
        username_input_selector := some "#u2", password_input_selector := some "#p2",
        login_btn_selector := some "#b2" } } }

/-- The watcher task of the fixtures. -/
def task0 : Task := ⟨"w1", "My Watcher"⟩

/-- A heap whose every cell holds `cfgNoAuth`. -/
def heap0 : Heap := fun _ => cfgNoAuth

/-- A heap whose every cell holds `cfgCustom`. -/
def heapCustom : Heap := fun _ => cfgCustom

/-- A heap whose every cell holds `cfgBasic`. -/
def heapBasic : Heap := fun _ => cfgBasic

/-- A heap whose configuration has the report feature turned off. -/
def heapInactive : Heap := fun _ => { cfgNoAuth with active := false }

/-! ## Generic trace lemmas -/

theorem countP_bind {p : Event → Bool} {α β : Type} (m : Js α) (f : α → Js β) :
    ((Js.bind m f).2).countP p =
      m.2.countP p + (match m.1 with
        | Except.ok a => ((f a).2).countP p
        | Except.error _ => 0) := by
  obtain ⟨r, evs⟩ := m
  cases r <;> simp [Js.bind, List.countP_append]

theorem bind_fst {α β : Type} (m : Js α) (f : α → Js β) :
    (Js.bind m f).1 = (match m.1 with
      | Except.ok a => (f a).1
      | Except.error e => Except.error e) := by
  obtain ⟨r, evs⟩ := m
  cases r <;> simp [Js.bind]

theorem bind_of_ok {α β : Type} {m : Js α} {a : α} (f : α → Js β)
    (h : m.1 = Except.ok a) :
    Js.bind m f = ((f a).1, m.2 ++ (f a).2) := by
  obtain ⟨r, evs⟩ := m
  cases r <;> simp_all [Js.bind]

theorem bind_of_error {α β : Type} {m : Js α} {e : String} (f : α → Js β)
    (h : m.1 = Except.error e) :
    Js.bind m f = (Except.error e, m.2) := by
  obtain ⟨r, evs⟩ := m
  cases r <;> simp_all [Js.bind]

theorem noEv_bind {p : Event → Bool} {α β : Type} {m : Js α} {f : α → Js β}
    (hm : noEv p m) (hf : ∀ a, noEv p (f a)) : noEv p (Js.bind m f) := by
  unfold noEv at *
  rw [countP_bind, hm]
  cases h : m.1 <;> simp [hf]

theorem noEv_jsTry {p : Event → Bool} {α : Type} {m : Js α} {h : String → Js α}
    (hm : noEv p m) (hh : ∀ e, noEv p (h e)) : noEv p (jsTry m h) := by
  unfold noEv at *
  obtain ⟨r, evs⟩ := m
  cases r with
  | error e =>
      have := hh e
      simp_all [jsTry, List.countP_append]
  | ok a => simp_all [jsTry]

theorem noEv_throw {p : Event → Bool} {α : Type} {msg : String} :
    noEv p (jsThrow (α := α) msg) := by
  simp [noEv, jsThrow]

theorem noEv_pure {p : Event → Bool} {α : Type} {a : α} : noEv p (Js.pure a) := by
  simp [noEv, Js.pure]

theorem noEv_step {p : Event → Bool} {e : Event} {ok : Bool} {msg : String}
    (he : p e = false) : noEv p (jsStep e ok msg) := by
  simp [noEv, jsStep, List.countP_cons, he]

theorem noEv_emit {p : Event → Bool} {e : Event} (he : p e = false) :
    noEv p (jsEmit e) := by
  simp [noEv, jsEmit, List.countP_cons, he]

theorem noEv_pair {p : Event → Bool} {α : Type} (r : Except String α) (e : Event)
    (he : p e = false) : noEv p ((r, [e]) : Js α) := by
  simp [noEv, List.countP_cons, he]

theorem closes_append (xs ys : List Event) :
    closes (xs ++ ys) = closes xs + closes ys := by
  simp [closes, List.countP_append]

theorem sends_append (xs ys : List Event) :
    sends (xs ++ ys) = sends xs + sends ys := by
  simp [sends, List.countP_append]

theorem historyWrites_append (xs ys : List Event) :
    historyWrites (xs ++ ys) = historyWrites xs ++ historyWrites ys := by
  simp [historyWrites, List.filterMap_append]

theorem historyWrites_eq_nil {evs : List Event} (h : evs.countP isWriteEv = 0) :
    historyWrites evs = [] := by
  induction evs with
  | nil => rfl
  | cons e tl ih =>
      rw [List.countP_cons] at h
      cases he : isWriteEv e with
      | true => simp [he] at h
      | false =>
          simp only [he, if_false] at h
          have hnone : (match e with
              | Event.historyWrite rec => some rec
              | _ => (none : Option HistoryRecord)) = none := by
            cases e <;> simp_all [isWriteEv]
          simp only [historyWrites, List.filterMap_cons, hnone] at *
          exact ih (by omega)

/-! ## Component trace lemmas -/

/-- Events the browser session itself can emit (everything before teardown,
mail and persistence). -/
def isBrowserEv : Event → Bool
  | Event.launch _ => true
  | Event.newPage => true
  | Event.setHeaders _ _ => true
  | Event.goto _ => true
  | Event.typeText _ _ => true
  | Event.click _ => true
  | Event.wait _ => true
  | Event.setViewport _ _ => true
  | Event.screenshot _ => true
  | Event.pdfPrint _ _ => true
  | _ => false

theorem browser_not_close : ∀ e, isBrowserEv e = true → isCloseEv e = false := by
  intro e
  cases e <;> simp [isBrowserEv, isCloseEv]

theorem browser_not_send : ∀ e, isBrowserEv e = true → isSendEv e = false := by
  intro e
  cases e <;> simp [isBrowserEv, isSendEv]

theorem browser_not_write : ∀ e, isBrowserEv e = true → isWriteEv e = false := by
  intro e
  cases e <;> simp [isBrowserEv, isWriteEv]

theorem noEv_kibana {p : Event → Bool} (hp : ∀ e, isBrowserEv e = true → p e = false)
    (w : World) (user pass appName : String) (t : Nat) :
    noEv p (Authenticator.kibana w user pass appName t) := by
  unfold Authenticator.kibana
  refine noEv_jsTry ?_ fun e => noEv_throw
  refine noEv_bind (noEv_step (hp _ rfl)) fun _ => ?_
  refine noEv_bind (noEv_step (hp _ rfl)) fun _ => ?_
  refine noEv_bind ?_ fun _ => ?_
  · split
    · exact noEv_step (hp _ rfl)
    · exact noEv_step (hp _ rfl)
  · refine noEv_bind (noEv_emit (hp _ rfl)) fun _ => ?_
    refine noEv_bind (noEv_step (hp _ rfl)) fun _ => ?_
    exact noEv_emit (hp _ rfl)

theorem noEv_custom {p : Event → Bool} (hp : ∀ e, isBrowserEv e = true → p e = false)
    (w : World) (user pass us ps ls : String) (t : Nat) :
    noEv p (Authenticator.custom w user pass us ps ls t) := by
  unfold Authenticator.custom
  refine noEv_jsTry ?_ fun e => noEv_throw
  refine noEv_bind (noEv_step (hp _ rfl)) fun _ => ?_
  refine noEv_bind (noEv_step (hp _ rfl)) fun _ => ?_
  exact noEv_bind (noEv_step (hp _ rfl)) fun _ => noEv_emit (hp _ rfl)

theorem noEv_basic {p : Event → Bool} (hp : ∀ e, isBrowserEv e = true → p e = false)
    (w : World) (user pass : String) :
    noEv p (Authenticator.basic w user pass) := by
  unfold Authenticator.basic
  exact noEv_jsTry (noEv_step (hp _ rfl)) fun e => noEv_throw

theorem noEv_authenticate {p : Event → Bool} (hp : ∀ e, isBrowserEv e = true → p e = false)
    (r : Reporter) (w : World) (mode : AuthMode) (user pass : String) (t : Nat) :
    noEv p (Reporter.authenticate r w mode user pass t) := by
  unfold Reporter.authenticate
  refine noEv_bind ?_ fun _ => noEv_bind ?_ fun _ => ?_
  · split
    · exact noEv_kibana hp w user pass "searchguard" t
    · exact noEv_pure
  · split
    · exact noEv_kibana hp w user pass "xpack" t
    · exact noEv_pure
  · split
    · exact noEv_custom hp w user pass "#user" "#pass" ".btn-lg" t
    · exact noEv_pure

theorem noEv_openPage {p : Event → Bool} (hp : ∀ e, isBrowserEv e = true → p e = false)
    (r : Reporter) (w : World) (u ep : String) :
    noEv p (Reporter.openPage r w u ep) := by
  unfold Reporter.openPage
  refine noEv_bind ?_ fun _ => noEv_bind ?_ fun _ => noEv_bind ?_ fun _ => ?_
  · exact noEv_jsTry
      (noEv_bind (noEv_step (hp _ rfl)) fun _ => noEv_step (hp _ rfl))
      fun _ => noEv_throw
  · split
    · cases r.authentication with
      | none => exact noEv_throw
      | some a => exact noEv_basic hp w a.username a.password
    · exact noEv_pure
  · exact noEv_jsTry (noEv_step (hp _ rfl)) fun _ => noEv_throw
  · split
    · exact noEv_authenticate hp r w _ _ _ _
    · exact noEv_emit (hp _ rfl)

theorem noEv_captureStep {p : Event → Bool} (hp : ∀ e, isBrowserEv e = true → p e = false)
    (w : World) (c : ReportConfig) (a : Action) :
    noEv p (captureStep w c a) := by
  unfold captureStep
  refine noEv_bind (noEv_openPage hp _ w _ _) fun _ => ?_
  split
  · unfold Reporter.screenshot
    refine noEv_jsTry ?_ fun e => noEv_throw
    exact noEv_bind (noEv_step (hp _ rfl)) fun _ => noEv_pair _ _ (hp _ rfl)
  · unfold Reporter.pdf
    exact noEv_jsTry (noEv_pair _ _ (hp _ rfl)) fun e => noEv_throw

theorem noClose_captureStep (w : World) (c : ReportConfig) (a : Action) :
    noEv isCloseEv (captureStep w c a) :=
  noEv_captureStep browser_not_close w c a

theorem noSend_captureStep (w : World) (c : ReportConfig) (a : Action) :
    noEv isSendEv (captureStep w c a) :=
  noEv_captureStep browser_not_send w c a

theorem noWrite_captureStep (w : World) (c : ReportConfig) (a : Action) :
    noEv isWriteEv (captureStep w c a) :=
  noEv_captureStep browser_not_write w c a

theorem noClose_mailAndPersist (w : World) (task : Task) (a : Action)
    (an subj text prio fn : String) (file : List Nat) :
    noEv isCloseEv (mailAndPersist w task a an subj text prio fn file) := by
  unfold mailAndPersist persistStep logHistoryOp
  refine noEv_bind (noEv_emit rfl) fun _ => ?_
  refine noEv_bind (noEv_step rfl) fun _ => ?_
  split
  · exact noEv_jsTry (noEv_pair _ _ rfl) fun e => noEv_pair _ _ rfl
  · exact noEv_bind (noEv_emit rfl) fun _ => noEv_pure

theorem endSession_snd (w : World) :
    (Reporter.endSession w).2 = [Event.browserClose] := by
  unfold Reporter.endSession
  cases hc : w.closeOk <;> simp [jsTry, jsStep, jsThrow]

theorem endSession_fst (w : World) :
    (Reporter.endSession w).1 =
      if w.closeOk then Except.ok ()
      else Except.error "fail to close headless chrome, close failed" := by
  unfold Reporter.endSession
  cases hc : w.closeOk <;> simp [jsTry, jsStep, jsThrow]

theorem closes_afterCapture (w : World) (task : Task) (a : Action)
    (an subj text prio fn : String) (file : List Nat) :
    closes (afterCapture w task a an subj text prio fn file).2 = 1 := by
  unfold afterCapture closes
  rw [countP_bind, endSession_snd]
  cases hfst : (Reporter.endSession w).1 with
  | error e => simp [isCloseEv, List.countP_cons]
  | ok u =>
      have h0 := noClose_mailAndPersist w task a an subj text prio fn file
      unfold noEv at h0
      simp [isCloseEv, List.countP_cons, h0]

theorem closes_preEvents (w : World) (a : Action) (actionName : String) :
    closes (preEvents w a actionName) = 0 := by
  unfold preEvents closes
  split <;> rfl

theorem sends_preEvents (w : World) (a : Action) (actionName : String) :
    sends (preEvents w a actionName) = 0 := by
  unfold preEvents sends
  split <;> rfl

theorem writes_preEvents (w : World) (a : Action) (actionName : String) :
    historyWrites (preEvents w a actionName) = [] := by
  unfold preEvents historyWrites
  split <;> rfl

/-! ## Base64 round-trip -/

theorem sextetChar_ne_pad {n : Nat} (h : n < 64) : sextetChar n ≠ '=' := by
  have hall : ∀ m : Fin 64, sextetChar m.val ≠ '=' := by decide
  exact hall ⟨n, h⟩

theorem charSextet_sextetChar {n : Nat} (h : n < 64) : charSextet (sextetChar n) = some n := by
  have hall : ∀ m : Fin 64, charSextet (sextetChar m.val) = some m.val := by decide
  exact hall ⟨n, h⟩

theorem base64_roundtrip (bs : List Nat) :
    (∀ x ∈ bs, x < 256) → base64DecodeGroups (base64EncodeGroups bs) = some bs := by
  induction bs using base64EncodeGroups.induct with
  | case1 =>
      intro _
      rfl
  | case2 a =>
      intro h
      have ha : a < 256 := h a (by simp)
      have h1 : a / 4 < 64 := by omega
      have h2 : a % 4 * 16 < 64 := by omega
      simp only [base64EncodeGroups, base64DecodeGroups]
      rw [if_pos (by simp)]
      rw [charSextet_sextetChar h1, charSextet_sextetChar h2]
      simp only [Option.some.injEq, List.cons.injEq, and_true]
      omega
  | case3 a b =>
      intro h
      have ha : a < 256 := h a (by simp)
      have hb : b < 256 := h b (by simp)
      have h1 : a / 4 < 64 := by omega
      have h2 : a % 4 * 16 + b / 16 < 64 := by omega
      have h3 : b % 16 * 4 < 64 := by omega
      simp only [base64EncodeGroups, base64DecodeGroups]
      rw [if_neg (fun hcond => absurd hcond.1 (sextetChar_ne_pad h3))]
      rw [if_pos (by simp)]
      rw [charSextet_sextetChar h1, charSextet_sextetChar h2, charSextet_sextetChar h3]
      simp only [Option.some.injEq, List.cons.injEq, and_true]
      omega
  | case4 a b c rest ih =>
      intro h
      have ha : a < 256 := h a (by simp)
      have hb : b < 256 := h b (by simp)
      have hc : c < 256 := h c (by simp)
      have hr : ∀ x ∈ rest, x < 256 := fun x hx => h x (by simp [hx])
      have h1 : a / 4 < 64 := by omega
      have h2 : a % 4 * 16 + b / 16 < 64 := by omega
      have h3 : b % 16 * 4 + c / 64 < 64 := by omega
      have h4 : c % 64 < 64 := by omega
      simp only [base64EncodeGroups, base64DecodeGroups]
      rw [if_neg (fun hcond => absurd hcond.1 (sextetChar_ne_pad h3))]
      rw [if_neg (fun hcond => absurd hcond.1 (sextetChar_ne_pad h4))]
      rw [charSextet_sextetChar h1, charSextet_sextetChar h2,
          charSextet_sextetChar h3, charSextet_sextetChar h4, ih hr]
      simp only [Option.some.injEq, List.cons.injEq, eq_self_iff_true, and_true, true_and]
      omega

theorem base64DecodeString_base64String (bs : List Nat) (h : ∀ x ∈ bs, x < 256) :
    base64DecodeString (base64String bs) = some bs :=
  base64_roundtrip bs h

/-! ## `doReport` decomposition lemmas -/

theorem closes_errTail (r : Except String ReportResult) : closes (errTail r) = 0 := by
  cases r <;> rfl

theorem sends_errTail (r : Except String ReportResult) : sends (errTail r) = 0 := by
  cases r <;> rfl

theorem writes_errTail (r : Except String ReportResult) : historyWrites (errTail r) = [] := by
  cases r <;> rfl

theorem doReport_trace (w : World) (σ : Heap) (cfgRef : String) (task : Task)
    (a : Action) (an : String) (h : (σ cfgRef).active = true) :
    (doReport w σ cfgRef task a an).1.2 =
      preEvents w a an ++
      (doReportBody w (overlayConfig (σ cfgRef) a) task a an
        (w.render (subjectTemplate a an)) (w.render (bodyTemplate a)) (effectivePriority a)
        (createReportFileName a.snapshot.name a.snapshot.type w.uuid w.nowTs)).2 ++
      errTail (doReportBody w (overlayConfig (σ cfgRef) a) task a an
        (w.render (subjectTemplate a an)) (w.render (bodyTemplate a)) (effectivePriority a)
        (createReportFileName a.snapshot.name a.snapshot.type w.uuid w.nowTs)).1 := by
  unfold doReport
  simp only [h, Bool.not_true, Bool.false_eq_true, if_false, writeRef, if_pos]
  split <;> simp_all [errTail]

theorem doReport_fst (w : World) (σ : Heap) (cfgRef : String) (task : Task)
    (a : Action) (an : String) (h : (σ cfgRef).active = true) :
    (doReport w σ cfgRef task a an).1.1 =
      wrapResult (doReportBody w (overlayConfig (σ cfgRef) a) task a an
        (w.render (subjectTemplate a an)) (w.render (bodyTemplate a)) (effectivePriority a)
        (createReportFileName a.snapshot.name a.snapshot.type w.uuid w.nowTs)).1 := by
  unfold doReport
  simp only [h, Bool.not_true, Bool.false_eq_true, if_false, writeRef, if_pos]
  split <;> simp_all [wrapResult]

theorem doReport_heap (w : World) (σ : Heap) (cfgRef : String) (task : Task)
    (a : Action) (an : String) (h : (σ cfgRef).active = true) :
    (doReport w σ cfgRef task a an).2 =
      writeRef σ cfgRef (overlayConfig (σ cfgRef) a) := by
  unfold doReport
  simp only [h, Bool.not_true, Bool.false_eq_true, if_false, writeRef, if_pos]
  split <;> simp_all

theorem closes_doReportBody (w : World) (c : ReportConfig) (task : Task) (a : Action)
    (an subj text prio fn : String) :
    closes (doReportBody w c task a an subj text prio fn).2 =
      if sessionOk w c a then 1 else 0 := by
  unfold doReportBody sessionOk closes
  rw [countP_bind]
  cases hcap : (captureStep w c a).1 with
  | error e =>
      have h0 := noClose_captureStep w c a
      unfold noEv at h0
      simp [h0]
  | ok file =>
      have h0 := noClose_captureStep w c a
      unfold noEv at h0
      have h1 := closes_afterCapture w task a an subj text prio fn file
      unfold closes at h1
      simp [h0, h1]

theorem doReportBody_fst_of_capture_error {w : World} {c : ReportConfig} {a : Action}
    {e : String} (task : Task) (an subj text prio fn : String)
    (hcap : (captureStep w c a).1 = Except.error e) :
    (doReportBody w c task a an subj text prio fn).1 = Except.error e := by
  unfold doReportBody
  rw [bind_fst, hcap]

theorem doReportBody_of_capture_ok {w : World} {c : ReportConfig} {a : Action}
    {file : List Nat} (task : Task) (an subj text prio fn : String)
    (hcap : (captureStep w c a).1 = Except.ok file) :
    doReportBody w c task a an subj text prio fn =
      ((afterCapture w task a an subj text prio fn file).1,
       (captureStep w c a).2 ++ (afterCapture w task a an subj text prio fn file).2) := by
  unfold doReportBody
  exact bind_of_ok _ hcap

theorem afterCapture_of_close_ok {w : World} (task : Task) (a : Action)
    (an subj text prio fn : String) (file : List Nat) (hclose : w.closeOk = true) :
    afterCapture w task a an subj text prio fn file =
      ((mailAndPersist w task a an subj text prio fn file).1,
       [Event.browserClose] ++ (mailAndPersist w task a an subj text prio fn file).2) := by
  unfold afterCapture
  have h1 : (Reporter.endSession w).1 = Except.ok () := by
    rw [endSession_fst, hclose]
    rfl
  rw [bind_of_ok _ h1, endSession_snd]

theorem afterCapture_of_close_fail {w : World} (task : Task) (a : Action)
    (an subj text prio fn : String) (file : List Nat) (hclose : w.closeOk = false) :
    afterCapture w task a an subj text prio fn file =
      (Except.error "fail to close headless chrome, close failed", [Event.browserClose]) := by
  unfold afterCapture
  have h1 : (Reporter.endSession w).1 =
      Except.error "fail to close headless chrome, close failed" := by
    rw [endSession_fst, hclose]
    rfl
  rw [bind_of_error _ h1, endSession_snd]

theorem mailAndPersist_nonstateless (w : World) (task : Task) (a : Action)
    (an subj text prio fn : String) (file : List Nat)
    (hstateless : a.stateless = false) (hsend : w.sendOk = true) :
    mailAndPersist w task a an subj text prio fn file =
      (let attachment := createReportAttachment fn file a.snapshot.type
       let primary : HistoryRecord :=
         { title := task.title, actionType := an, level := some prio,
           report := true, message := text, object := some attachment }
       let mailEv := Event.emailSend
         { text := text, fromAddress := a.fromAddress, toAddress := a.toAddress,
           subject := subj, attachment := attachment }
       match w.primaryWriteResult with
       | Except.ok i =>
           (Except.ok (ReportResult.historyId i),
            [Event.logDebug ("sending email, watcher " ++ task.id ++ ", text " ++ text),
             mailEv, Event.historyWrite primary])
       | Except.error e =>
           (Except.map ReportResult.historyId w.fallbackWriteResult,
            [Event.logDebug ("sending email, watcher " ++ task.id ++ ", text " ++ text),
             mailEv, Event.historyWrite primary,
             Event.historyWrite { title := task.title, actionType := an, message := e }])) := by
  unfold mailAndPersist persistStep logHistoryOp
  cases hw : w.primaryWriteResult with
  | ok i => simp [hstateless, hsend, hw, Js.bind, jsEmit, jsStep, jsTry, Except.map]
  | error e => simp [hstateless, hsend, hw, Js.bind, jsEmit, jsStep, jsTry, Except.map]

theorem mailAndPersist_stateless (w : World) (task : Task) (a : Action)
    (an subj text prio fn : String) (file : List Nat)
    (hstateless : a.stateless = true) (hsend : w.sendOk = true) :
    mailAndPersist w task a an subj text prio fn file =
      (Except.ok (ReportResult.message "stateless report does not save data to Elasticsearch"),
       (let attachment := createReportAttachment fn file a.snapshot.type
        [Event.logDebug ("sending email, watcher " ++ task.id ++ ", text " ++ text),
         Event.emailSend
           { text := text, fromAddress := a.fromAddress, toAddress := a.toAddress,
             subject := subj, attachment := attachment },
         Event.logDebug "stateless report does not save data to Elasticsearch"])) := by
  unfold mailAndPersist persistStep
  simp [hstateless, hsend, Js.bind, jsEmit, jsStep, Js.pure]

theorem sends_doReportBody_close_fail (w : World) (c : ReportConfig) (task : Task)
    (a : Action) (an subj text prio fn : String) (hclose : w.closeOk = false) :
    sends (doReportBody w c task a an subj text prio fn).2 = 0 := by
  unfold doReportBody sends
  rw [countP_bind]
  cases hcap : (captureStep w c a).1 with
  | error e =>
      have h0 := noSend_captureStep w c a
      unfold noEv at h0
      simp [h0]
  | ok file =>
      have h0 := noSend_captureStep w c a
      unfold noEv at h0
      simp [h0, afterCapture_of_close_fail task a an subj text prio fn file hclose, isSendEv]

/-! ## Claim theorems -/

/-- C1 (counterexample): a run whose navigation fails opens a browser (the
`launch` event is in the trace) but never attempts `Reporter.end` — the close
count is 0, not the claimed "exactly once on every exit path". -/
theorem C1_counterexample :
    Event.launch "/usr/bin/chromium" ∈
      (doReport wGotoFail heap0 "cfg" task0 action0 "report").1.2 ∧
    closes (doReport wGotoFail heap0 "cfg" task0 action0 "report").1.2 = 0 :=
  ⟨by decide, by rfl⟩

/-- C1 (amended): `Reporter.end` is attempted exactly once iff `open` and the
capture both succeed; when `open` (launch, navigation, authentication) or the
capture fails, it is never attempted — the browser is not torn down on those
exit paths.  In particular it is never attempted more than once. -/
theorem C1_close_iff_session (w : World) (σ : Heap) (cfgRef : String)
    (task : Task) (a : Action) (an : String)
    (hactive : (σ cfgRef).active = true) :
    closes (doReport w σ cfgRef task a an).1.2 =
      if sessionOk w (overlayConfig (σ cfgRef) a) a then 1 else 0 := by
  rw [doReport_trace w σ cfgRef task a an hactive, closes_append, closes_append,
    closes_preEvents, closes_doReportBody, closes_errTail]
  simp

/-- C1 (witness): on the all-ok fixture the session succeeds and the close is
attempted exactly once. -/
theorem C1_close_iff_session_witness :
    (heap0 "cfg").active = true ∧
    closes (doReport wAllOk heap0 "cfg" task0 action0 "report").1.2 =
      if sessionOk wAllOk (overlayConfig (heap0 "cfg") action0) action0 then 1 else 0 :=
  ⟨rfl, C1_close_iff_session wAllOk heap0 "cfg" task0 action0 "report" rfl⟩

/-- C2 (counterexample): with the feature flag off, `doReport` rejects — the
`Reports Disabled` exception crosses the orchestrator boundary, contradicting
the claim that every internal failure (including the reports-disabled check)
is caught. -/
theorem C2_counterexample :
    (doReport wAllOk heapInactive "cfg" task0 action0 "report").1.1 =
      Except.error "Reports Disabled: Action requires Email Settings!" := rfl

/-- C2 (amended): once the reports-disabled check has passed (the flag is
active), no exception crosses the boundary: whatever the world does to the
browser, mail and history steps, the call resolves. -/
theorem C2_no_rejection_when_active (w : World) (σ : Heap) (cfgRef : String)
    (task : Task) (a : Action) (an : String)
    (hactive : (σ cfgRef).active = true) :
    ∃ v, (doReport w σ cfgRef task a an).1.1 = Except.ok v := by
  rw [doReport_fst w σ cfgRef task a an hactive]
  unfold wrapResult
  split <;> exact ⟨_, rfl⟩

/-- C2 (witness): the amended theorem applied to the all-ok fixture. -/
theorem C2_no_rejection_when_active_witness :
    (heap0 "cfg").active = true ∧
    ∃ v, (doReport wAllOk heap0 "cfg" task0 action0 "report").1.1 = Except.ok v :=
  ⟨rfl, C2_no_rejection_when_active wAllOk heap0 "cfg" task0 action0 "report" rfl⟩

/-- C5 (counterexample): a non-stateless run whose capture fails performs zero
history writes — not the claimed "exactly one write, never zero". -/
theorem C5_counterexample :
    action0.stateless = false ∧
    historyWrites (doReport wShotFail heap0 "cfg" task0 action0 "report").1.2 = [] :=
  ⟨rfl, rfl⟩

/-- C5 (amended): for every non-stateless run that reaches the persistence
step (open, capture, close and the mail send all succeeded), the history-write
trace is exactly the primary record when the primary write succeeds, and
exactly the primary record followed by one fallback record — carrying the
error and the original `actionType`/`title` — when it fails; a failing
fallback write adds no third write.  Runs that fail earlier perform no write
at all. -/
theorem C5_single_write_with_fallback (w : World) (σ : Heap) (cfgRef : String)
    (task : Task) (a : Action) (an : String) (file : List Nat)
    (hactive : (σ cfgRef).active = true)
    (hstateless : a.stateless = false)
    (hclose : w.closeOk = true)
    (hsend : w.sendOk = true)
    (hcap : (captureStep w (overlayConfig (σ cfgRef) a) a).1 = Except.ok file) :
    historyWrites (doReport w σ cfgRef task a an).1.2 =
      (let text := w.render (bodyTemplate a)
       let attachment := createReportAttachment
         (createReportFileName a.snapshot.name a.snapshot.type w.uuid w.nowTs) file
         a.snapshot.type
       let primary : HistoryRecord :=
         { title := task.title, actionType := an, level := some (effectivePriority a),
           report := true, message := text, object := some attachment }
       match w.primaryWriteResult with
       | Except.ok _ => [primary]
       | Except.error e =>
           [primary, { title := task.title, actionType := an, message := e }]) := by
  rw [doReport_trace w σ cfgRef task a an hactive, historyWrites_append, historyWrites_append,
    writes_preEvents, writes_errTail, doReportBody_of_capture_ok task an _ _ _ _ hcap]
  simp only [List.nil_append, List.append_nil]
  rw [historyWrites_append, historyWrites_eq_nil (noWrite_captureStep w _ a),
    afterCapture_of_close_ok task a an _ _ _ _ file hclose]
  simp only [List.nil_append]
  rw [historyWrites_append, mailAndPersist_nonstateless w task a _ _ _ _ _ file hstateless hsend]
  cases hw : w.primaryWriteResult <;> simp [historyWrites, hw]

/-- C5 (witness): with a failing primary write on the all-ok fixture, the
amended theorem instantiates to exactly two writes: primary then fallback. -/
theorem C5_single_write_with_fallback_witness :
    (heap0 "cfg").active = true ∧ action0.stateless = false ∧
    wPrimaryFail.closeOk = true ∧ wPrimaryFail.sendOk = true ∧
    (captureStep wPrimaryFail (overlayConfig (heap0 "cfg") action0) action0).1 =
      Except.ok [7, 8, 9] ∧
    historyWrites (doReport wPrimaryFail heap0 "cfg" task0 action0 "report").1.2 =
      (let text := wPrimaryFail.render (bodyTemplate action0)
       let attachment := createReportAttachment
         (createReportFileName action0.snapshot.name action0.snapshot.type
           wPrimaryFail.uuid wPrimaryFail.nowTs) [7, 8, 9] action0.snapshot.type
       let primary : HistoryRecord :=
         { title := task0.title, actionType := "report",
           level := some (effectivePriority action0),
           report := true, message := text, object := some attachment }
       match wPrimaryFail.primaryWriteResult with
       | Except.ok _ => [primary]
       | Except.error e =>
           [primary, { title := task0.title, actionType := "report", message := e }]) :=
  ⟨rfl, rfl, rfl, rfl, rfl,
    C5_single_write_with_fallback wPrimaryFail heap0 "cfg" task0 action0 "report" [7, 8, 9]
      rfl rfl rfl rfl rfl⟩

/-- C6 (counterexample): with a failing `browser.close()` on an otherwise
healthy run, the capture succeeds yet no mail is ever sent — the teardown
failure does discard the artifact, contradicting the claim. -/
theorem C6_counterexample :
    (captureStep wCloseFail (overlayConfig (heap0 "cfg") action0) action0).1 =
      Except.ok [7, 8, 9] ∧
    sends (doReport wCloseFail heap0 "cfg" task0 action0 "report").1.2 = 0 :=
  ⟨rfl, rfl⟩

/-- C6 (amended): `report.end()` runs before `email.send`; when the close
fails the run aborts to the catch block, so no mail is sent at all — a
teardown failure discards a successful capture. -/
theorem C6_close_failure_aborts_mail (w : World) (σ : Heap) (cfgRef : String)
    (task : Task) (a : Action) (an : String)
    (hclose : w.closeOk = false) :
    sends (doReport w σ cfgRef task a an).1.2 = 0 := by
  by_cases hactive : (σ cfgRef).active = true
  · rw [doReport_trace w σ cfgRef task a an hactive, sends_append, sends_append,
      sends_preEvents, sends_doReportBody_close_fail w _ task a _ _ _ _ _ hclose,
      sends_errTail]
  · unfold doReport
    simp only [Bool.not_eq_true] at hactive
    simp [hactive, sends]

/-- C6 (witness): the amended theorem at the failing-close fixture. -/
theorem C6_close_failure_aborts_mail_witness :
    wCloseFail.closeOk = false ∧
    sends (doReport wCloseFail heap0 "cfg" task0 actionStateless "report").1.2 = 0 :=
  ⟨rfl, C6_close_failure_aborts_mail wCloseFail heap0 "cfg" task0 actionStateless "report" rfl⟩

/-- C7 (counterexample): the stateless sentinel the code returns is
`"stateless report does not save data to Elasticsearch"`, not the claimed
literal `"stateless report does not save data"`. -/
theorem C7_counterexample :
    (doReport wAllOk heap0 "cfg" task0 actionStateless "report").1.1 =
      Except.ok (some (ReportResult.message
        "stateless report does not save data to Elasticsearch")) ∧
    "stateless report does not save data to Elasticsearch" ≠
      "stateless report does not save data" :=
  ⟨rfl, by decide⟩

/-- C7 (amended): a stateless action whose capture, close and mail send
succeed performs no history write and resolves with exactly
`\x7bmessage: "stateless report does not save data to Elasticsearch"\x7d`. -/
theorem C7_stateless_no_write (w : World) (σ : Heap) (cfgRef : String)
    (task : Task) (a : Action) (an : String) (file : List Nat)
    (hactive : (σ cfgRef).active = true)
    (hstateless : a.stateless = true)
    (hclose : w.closeOk = true)
    (hsend : w.sendOk = true)
    (hcap : (captureStep w (overlayConfig (σ cfgRef) a) a).1 = Except.ok file) :
    historyWrites (doReport w σ cfgRef task a an).1.2 = [] ∧
    (doReport w σ cfgRef task a an).1.1 =
      Except.ok (some (ReportResult.message
        "stateless report does not save data to Elasticsearch")) := by
  constructor
  · rw [doReport_trace w σ cfgRef task a an hactive, historyWrites_append, historyWrites_append,
      writes_preEvents, writes_errTail, doReportBody_of_capture_ok task an _ _ _ _ hcap]
    simp only [List.nil_append, List.append_nil]
    rw [historyWrites_append, historyWrites_eq_nil (noWrite_captureStep w _ a),
      afterCapture_of_close_ok task a an _ _ _ _ file hclose]
    simp only [List.nil_append]
    rw [historyWrites_append, mailAndPersist_stateless w task a _ _ _ _ _ file hstateless hsend]
    simp [historyWrites]
  · rw [doReport_fst w σ cfgRef task a an hactive, doReportBody_of_capture_ok task an _ _ _ _ hcap]
    simp only []
    rw [afterCapture_of_close_ok task a an _ _ _ _ file hclose]
    simp only []
    rw [mailAndPersist_stateless w task a _ _ _ _ _ file hstateless hsend]
    rfl

/-- C7 (witness): the amended theorem at the stateless all-ok fixture. -/
theorem C7_stateless_no_write_witness :
    (heap0 "cfg").active = true ∧ actionStateless.stateless = true ∧
    historyWrites (doReport wAllOk heap0 "cfg" task0 actionStateless "report").1.2 = [] :=
  ⟨rfl, rfl,
    (C7_stateless_no_write wAllOk heap0 "cfg" task0 actionStateless "report" [7, 8, 9]
      rfl rfl rfl rfl rfl).1⟩

/-- C3 (code bug, evaluated): in custom mode the overlay does merge the
per-action selector overrides into the configuration (here the overridden
login button `#my-btn` with the config fallbacks `#login-user`/`#login-pass`),
but the login interaction ignores the merged values: it types into the
hardcoded `#user`/`#pass` and clicks the hardcoded `.btn-lg`, and the merged
selectors never appear in the trace. -/
theorem C3_hardcoded_selectors_eval :
    (overlayConfig cfgCustom actionBtnOverride).authentication.custom =
      ⟨"#login-user", "#login-pass", "#my-btn"⟩ ∧
    Event.typeText "#user" "bob" ∈
      (doReport wAllOk heapCustom "cfg" task0 actionBtnOverride "report").1.2 ∧
    Event.typeText "#pass" "pw" ∈
      (doReport wAllOk heapCustom "cfg" task0 actionBtnOverride "report").1.2 ∧
    Event.click ".btn-lg" ∈
      (doReport wAllOk heapCustom "cfg" task0 actionBtnOverride "report").1.2 ∧
    ((doReport wAllOk heapCustom "cfg" task0 actionBtnOverride "report").1.2).countP
      (fun e => e == Event.typeText "#login-user" "bob") = 0 ∧
    ((doReport wAllOk heapCustom "cfg" task0 actionBtnOverride "report").1.2).countP
      (fun e => e == Event.click "#my-btn") = 0 :=
  ⟨rfl, by decide, by decide, by decide, by rfl, by rfl⟩

/-- C4 (code bug, evaluated): with basic-mode authentication enabled,
`openPage` reads `this.authentication` — which the constructor never assigns —
so the run dies with a `TypeError` before any `Authorization` header is set
and before navigation; the header-setting call is never reached. -/
theorem C4_basic_auth_typeerror_eval :
    (doReport wAllOk heapBasic "cfg" task0 action0 "report").1.1 = Except.ok none ∧
    ((doReport wAllOk heapBasic "cfg" task0 action0 "report").1.2).countP isSetHeadersEv = 0 ∧
    Event.logError "TypeError: Cannot read property \x27username\x27 of undefined" ∈
      (doReport wAllOk heapBasic "cfg" task0 action0 "report").1.2 ∧
    ((doReport wAllOk heapBasic "cfg" task0 action0 "report").1.2).countP
      (fun e => e == Event.goto "http://x") = 0 :=
  ⟨rfl, rfl, by decide, rfl⟩

/-- C8 (counterexample): for `pdf` the inline alternative part is
`"<html><p>Find PDF report in the attachment.</p></html>"`; it neither equals
nor contains the claimed text `"Find the document in the attachment"`, and it
does not reference `cid:my-report`. -/
theorem C8_counterexample :
    ((createReportAttachment "f" [0] "pdf").getD 0
        ⟨"", false, none, none, false, none⟩).data =
      "<html><p>Find PDF report in the attachment.</p></html>" ∧
    ¬ ("Find the document in the attachment".toList <:+:
        ((createReportAttachment "f" [0] "pdf").getD 0
          ⟨"", false, none, none, false, none⟩).data.toList) ∧
    ¬ ("cid:my-report".toList <:+:
        ((createReportAttachment "f" [0] "pdf").getD 0
          ⟨"", false, none, none, false, none⟩).data.toList) :=
  ⟨rfl, by decide, by decide⟩

/-- C8 (amended): `buildAttachment` returns the ordered two-part structure —
an inline HTML alternative whose text is
`"<html><p>Find PDF report in the attachment.</p></html>"` for `pdf` (no
`cid` reference) and an image tag referencing `cid:my-report` otherwise, and a
base64 binary part named with the filename, tagged `Content-ID: <my-report>`,
of mime type `application/pdf` for `pdf` and `image/<type>` otherwise — and
decoding the base64 payload yields exactly the captured bytes. -/
theorem C8_attachment_structure (filename : String) (file : List Nat) (type : String)
    (h : ∀ x ∈ file, x < 256) :
    createReportAttachment filename file type =
      [ { data := (if type = "pdf" then
              "<html><p>Find PDF report in the attachment.</p></html>"
            else "<html><img src=\x27cid:my-report\x27 width=\x27100%\x27></html>"),
          alternative := true },
        { data := base64String file,
          type := some (if type = "pdf" then "application/pdf" else "image/" ++ type),
          name := some filename, encoded := true, contentID := some "<my-report>" } ] ∧
    base64DecodeString (base64String file) = some file := by
  constructor
  · unfold createReportAttachment
    split <;> simp_all
  · exact base64DecodeString_base64String file h

/-- C8 (witness): the structure theorem at a concrete pdf attachment; the
payload decodes back to the captured bytes. -/
theorem C8_attachment_structure_witness :
    (∀ x ∈ [0, 255, 10], x < 256) ∧
    base64DecodeString (base64String [0, 255, 10]) = some [0, 255, 10] :=
  ⟨by decide, (C8_attachment_structure "f" [0, 255, 10] "pdf" (by decide)).2⟩

/-- C9: `createReportFileName` returns `name ++ "." ++ type` for a non-empty
requested name, and the synthesized `report-<uuid>-<timestamp>.<type>` shape
when the name is missing or empty (`u`/`ts` are the `uuid()` and
`moment().format('DD-MM-YYYY-h-m-s')` values of the call). -/
theorem C9_filename (name type u ts : String) :
    (name ≠ "" → createReportFileName (some name) type u ts = name ++ "." ++ type) ∧
    createReportFileName none type u ts = "report-" ++ u ++ "-" ++ ts ++ "." ++ type ∧
    createReportFileName (some "") type u ts = "report-" ++ u ++ "-" ++ ts ++ "." ++ type := by
  refine ⟨fun h => ?_, rfl, rfl⟩
  unfold createReportFileName jsFalsyStr
  simp [h]

/-- C9 (witness): `deriveFilename("nightly", "pdf")` is exactly
`"nightly.pdf"`. -/
theorem C9_filename_witness :
    ("nightly" : String) ≠ "" ∧
    createReportFileName (some "nightly") "pdf" "u1" "t1" = "nightly.pdf" :=
  ⟨by decide, ((C9_filename "nightly" "pdf" "u1" "t1").1 (by decide)).trans (by decide)⟩

/-- C10: the override step mutates the configuration object obtained from
`getConfiguration` in place: after `doReport`, the heap cell that
`getConfiguration` handed out (read through the same reference `cfgRef`) holds
the overlaid values — per-action credentials, `res`-derived viewport strings,
the per-action delay as timeout, and (custom mode) the per-action selectors —
visible to any other holder of that object. -/
theorem C10_config_mutated_in_place (w : World) (σ : Heap) (cfgRef : String)
    (task : Task) (a : Action) (an : String)
    (hactive : (σ cfgRef).active = true)
    (d : Nat) (hd : a.snapshot.params.delay = some d) (hd0 : d ≠ 0)
    (hcustom : (σ cfgRef).authentication.mode.custom = true)
    (s1 s2 s3 : String)
    (hs1 : a.snapshot.params.username_input_selector = some s1) (hs1e : s1 ≠ "")
    (hs2 : a.snapshot.params.password_input_selector = some s2) (hs2e : s2 ≠ "")
    (hs3 : a.snapshot.params.login_btn_selector = some s3) (hs3e : s3 ≠ "") :
    (doReport w σ cfgRef task a an).2 cfgRef = overlayConfig (σ cfgRef) a ∧
    ((doReport w σ cfgRef task a an).2 cfgRef).authentication.username =
      a.snapshot.params.username ∧
    ((doReport w σ cfgRef task a an).2 cfgRef).authentication.password =
      a.snapshot.params.password ∧
    ((doReport w σ cfgRef task a an).2 cfgRef).file.screenshot.width =
      (a.snapshot.res.splitOn "x").getD 0 "" ∧
    ((doReport w σ cfgRef task a an).2 cfgRef).file.screenshot.height =
      (a.snapshot.res.splitOn "x").getD 1 "" ∧
    ((doReport w σ cfgRef task a an).2 cfgRef).timeout = d ∧
    ((doReport w σ cfgRef task a an).2 cfgRef).authentication.custom = ⟨s1, s2, s3⟩ := by
  have hh := doReport_heap w σ cfgRef task a an hactive
  rw [hh]
  refine ⟨by simp [writeRef], ?_, ?_, ?_, ?_, ?_, ?_⟩ <;>
    simp [writeRef, overlayConfig, jsOrNat, jsOrStr, hd, hd0, hcustom,
      hs1, hs2, hs3, hs1e, hs2e, hs3e]

/-- C10 (witness): the mutation theorem applied to the custom-mode fixture
that supplies every override. -/
theorem C10_config_mutated_in_place_witness :
    (heapCustom "cfg").active = true ∧
    actionCustomFull.snapshot.params.delay = some 10 ∧
    (heapCustom "cfg").authentication.mode.custom = true ∧
    ((doReport wAllOk heapCustom "cfg" task0 actionCustomFull "report").2 "cfg").timeout = 10 ∧
    ((doReport wAllOk heapCustom "cfg" task0 actionCustomFull "report").2 "cfg").authentication.custom =
      ⟨"#u2", "#p2", "#b2"⟩ :=
  ⟨rfl, rfl, rfl,
    (C10_config_mutated_in_place wAllOk heapCustom "cfg" task0 actionCustomFull "report"
      rfl 10 rfl (by decide) rfl "#u2" "#p2" "#b2" rfl (by decide) rfl (by decide) rfl
      (by decide)).2.2.2.2.2.1,
    (C10_config_mutated_in_place wAllOk heapCustom "cfg" task0 actionCustomFull "report"
      rfl 10 rfl (by decide) rfl "#u2" "#p2" "#b2" rfl (by decide) rfl (by decide) rfl
      (by decide)).2.2.2.2.2.2⟩

end Sentinl
